import Mathlib

/-!
Verification of the error-context classification layer of
crates/gitbutler-core/src/error.rs.

The Rust module defines a classification code enum `Code`, a `Context`
value (code plus optional message), and an extension trait on
`anyhow::Error` that retrieves the most relevant attached `Context`
from an error chain.

We embed the data types directly.  An `anyhow::Error` chain is embedded
as the list of annotations attached to it, ordered from most recently
attached (outermost) to least recently attached (innermost), together
with the display string of the root cause.  `anyhow`'s
`downcast_ref::<T>()` walks the chain from the outside in and returns
the first annotation of type `T`; we model that walk as a first-match
search over the annotation list, one search function per annotation
type, mirroring the two `downcast_ref` calls made by the source.
-/

namespace GitButlerError

/-- Embedding of `enum Code` from error.rs, lines 84-92. -/
inductive Code where
  | Unknown
  | Validation
  | ProjectGitAuth
  deriving DecidableEq, Fintype

/-- Embedding of `impl Display for Code` (error.rs lines 94-103):
the stable identifier string written by `fmt`. -/
def Code.display : Code → String
  | .Unknown => "errors.unknown"
  | .Validation => "errors.validation"
  | .ProjectGitAuth => "errors.projects.git.auth"

/-- Embedding of `#[derive(Default)]` with `#[default]` on `Unknown`
(error.rs lines 84-89). -/
def Code.defaultValue : Code := .Unknown

/-- Embedding of `struct Context` (error.rs lines 109-115).  The Rust
`message` field is `Option<Cow<'static, str>>`; the owned/borrowed
distinction of `Cow` is a performance detail with no semantic content,
so the field is embedded as `Option String`. -/
structure Context where
  code : Code
  message : Option String
  deriving DecidableEq

/-- Embedding of `impl Display for Context` (error.rs lines 117-121):
`f.write_str(self.message.as_deref().unwrap_or("Something went wrong"))`. -/
def Context.display (c : Context) : String :=
  c.message.getD "Something went wrong"

/-- Embedding of `impl From<Code> for Context` (error.rs lines 123-130). -/
def Context.fromCode (code : Code) : Context :=
  { code := code, message := none }

/-- Embedding of `Context::new` (error.rs lines 134-139). -/
def Context.new (message : String) : Context :=
  { code := .Unknown, message := some message }

/-- Embedding of `Context::new_static` (error.rs lines 142-147). -/
def Context.new_static (code : Code) (message : String) : Context :=
  { code := code, message := some message }

/-- Embedding of `Context::with_code` (error.rs lines 150-153).  The
Rust method takes `mut self` by value, so the caller's original value
is never observably mutated; in the pure embedding it simply returns a
new record with the `code` field replaced. -/
def Context.with_code (c : Context) (code : Code) : Context :=
  { c with code := code }

/-- One annotation attached to an `anyhow::Error` chain: a `Context`,
a bare `Code`, or any unrelated value attached by a caller (modelled
by its display string). -/
inductive Attachment where
  | ctx (c : Context)
  | code (c : Code)
  | other (s : String)
  deriving DecidableEq

/-- Whether an attachment is a `Context` annotation. -/
def Attachment.isCtx : Attachment → Bool
  | .ctx _ => true
  | _ => false

/-- Whether an attachment is a bare `Code` annotation. -/
def Attachment.isCode : Attachment → Bool
  | .code _ => true
  | _ => false

/-- The `Context` an annotation stands for: a `Context` annotation
stands for itself, a bare `Code` annotation for its code→Context
conversion, and unrelated annotations for nothing. -/
def Attachment.derived : Attachment → Option Context
  | .ctx c => some c
  | .code c => some (Context.fromCode c)
  | .other _ => none

/-- Embedding of an `anyhow::Error` chain: the annotations attached to
it, outermost (most recently attached) first, and the display string
of the innermost (root) cause. -/
structure ErrChain where
  attachments : List Attachment
  rootCause : String

/-- Model of `anyhow::Error::downcast_ref::<Context>()`: the first
`Context` annotation found walking the chain from the outside in. -/
def downcastContext : List Attachment → Option Context
  | [] => none
  | .ctx c :: _ => some c
  | _ :: rest => downcastContext rest

/-- Model of `anyhow::Error::downcast_ref::<Code>()`: the first bare
`Code` annotation found walking the chain from the outside in. -/
def downcastCode : List Attachment → Option Code
  | [] => none
  | .code c :: _ => some c
  | _ :: rest => downcastCode rest

/-- Embedding of `AnyhowContextExt::custom_context` (error.rs lines
174-180): `if let Some(ctx) = self.downcast_ref::<Context>() {
Some(ctx.clone()) } else { self.downcast_ref::<Code>().map(|code|
(*code).into()) }`. -/
def custom_context (e : ErrChain) : Option Context :=
  match downcastContext e.attachments with
  | some ctx => some ctx
  | none => (downcastCode e.attachments).map Context.fromCode

/-- Embedding of `AnyhowContextExt::custom_context_or_root_cause`
(error.rs lines 182-187): `self.custom_context().unwrap_or_else(||
Context { code: Code::Unknown, message:
Some(self.root_cause().to_string().into()) })`. -/
def custom_context_or_root_cause (e : ErrChain) : Context :=
  (custom_context e).getD { code := .Unknown, message := some e.rootCause }

/-- The downcast walk for `Context` finds nothing exactly when no
`Context` annotation occurs anywhere in the chain. -/
theorem downcastContext_eq_none_iff (l : List Attachment) :
    downcastContext l = none ↔ ∀ a ∈ l, a.isCtx = false := by
  induction l with
  | nil => simp [downcastContext]
  | cons a rest ih =>
    cases a <;> simp [downcastContext, Attachment.isCtx, ih]

/-- The downcast walk for `Code` finds nothing exactly when no bare
`Code` annotation occurs anywhere in the chain. -/
theorem downcastCode_eq_none_iff (l : List Attachment) :
    downcastCode l = none ↔ ∀ a ∈ l, a.isCode = false := by
  induction l with
  | nil => simp [downcastCode]
  | cons a rest ih =>
    cases a <;> simp [downcastCode, Attachment.isCode, ih]

/-- A `Context` returned by the downcast walk is an annotation of the
chain. -/
theorem downcastContext_mem (l : List Attachment) (c : Context)
    (h : downcastContext l = some c) : Attachment.ctx c ∈ l := by
  induction l with
  | nil => simp [downcastContext] at h
  | cons a rest ih =>
    cases a with
    | ctx c2 =>
      simp [downcastContext] at h
      simp [h]
    | code c2 =>
      simp [downcastContext] at h
      simp [ih h]
    | other s =>
      simp [downcastContext] at h
      simp [ih h]

/-- A `Code` returned by the downcast walk is an annotation of the
chain. -/
theorem downcastCode_mem (l : List Attachment) (k : Code)
    (h : downcastCode l = some k) : Attachment.code k ∈ l := by
  induction l with
  | nil => simp [downcastCode] at h
  | cons a rest ih =>
    cases a with
    | ctx c2 =>
      simp [downcastCode] at h
      simp [ih h]
    | code c2 =>
      simp [downcastCode] at h
      simp [h]
    | other s =>
      simp [downcastCode] at h
      simp [ih h]

/-- Walking past a prefix with no `Context` annotation, the downcast
walk returns the first `Context` after it. -/
theorem downcastContext_append (l₁ l₂ : List Attachment) (c : Context)
    (h : ∀ a ∈ l₁, a.isCtx = false) :
    downcastContext (l₁ ++ Attachment.ctx c :: l₂) = some c := by
  induction l₁ with
  | nil => simp [downcastContext]
  | cons a rest ih =>
    cases a <;> simp_all [downcastContext, Attachment.isCtx]

/-- `custom_context` finds nothing exactly when both downcast walks
find nothing. -/
theorem custom_context_eq_none_iff (e : ErrChain) :
    custom_context e = none ↔
      downcastContext e.attachments = none ∧ downcastCode e.attachments = none := by
  unfold custom_context
  cases h : downcastContext e.attachments <;> simp [h]

/-- C1 (counterexample): the claim that with annotations attached in
order A then B (B outer), `custom_context()` returns the value
derived from B for every combination of Context/Code annotations, is
false.  With A a `Context` (inner) and B a bare `Code` (outer), the
source first downcasts for `Context` over the whole chain and finds
A, so the result is derived from A, not from B. -/
theorem custom_context_outer_code_loses :
    custom_context
        { attachments := [Attachment.code Code.Unknown,
            Attachment.ctx (Context.new_static Code.Validation "invalid")],
          rootCause := "io" }
      ≠ Attachment.derived (Attachment.code Code.Unknown) := by
  decide

/-- C1 (amended): given a chain with annotations attached in order A
then B (B attached later / outer), each a `Context` or a bare `Code`,
`custom_context()` returns the value derived from B — except in the
one combination where A is a `Context` and B is a bare `Code`, in
which case it returns the `Context` derived from A, because the
`Context` downcast over the whole chain runs before any `Code`
downcast. -/
theorem custom_context_two_annotations (a b : Attachment) (root : String)
    (ha : a.isCtx = true ∨ a.isCode = true)
    (hb : b.isCtx = true ∨ b.isCode = true) :
    custom_context { attachments := [b, a], rootCause := root } =
      if a.isCtx = true ∧ b.isCode = true then a.derived else b.derived := by
  cases a <;> cases b <;>
    simp_all [custom_context, downcastContext, downcastCode, Attachment.isCtx,
      Attachment.isCode, Attachment.derived, Context.fromCode]

/-- Witness for C1 (amended) at A a bare `Code`, B a `Context`: the
outer `Context` wins. -/
theorem custom_context_two_annotations_witness :
    custom_context
        { attachments := [Attachment.ctx (Context.new "outer wins"),
            Attachment.code Code.ProjectGitAuth],
          rootCause := "io" }
      = some (Context.new "outer wins") := by
  have h := custom_context_two_annotations (Attachment.code Code.ProjectGitAuth)
    (Attachment.ctx (Context.new "outer wins")) "io" (Or.inr rfl) (Or.inl rfl)
  simpa [Attachment.isCtx, Attachment.isCode, Attachment.derived] using h

/-- C2: `custom_context()` prefers a `Context` annotation anywhere in
the chain; failing that it returns a bare `Code` annotation converted
into a `Context` with no message; it returns none exactly when
neither kind of annotation appears anywhere; and in the scenario
where `Code::Unknown` is attached and a `Context` is attached later
(outer), it returns that `Context`. -/
theorem custom_context_characterization (e : ErrChain) :
    (custom_context e = none ↔
      ∀ a ∈ e.attachments, a.isCtx = false ∧ a.isCode = false)
    ∧ ((∃ c, Attachment.ctx c ∈ e.attachments) →
        ∃ c, custom_context e = some c ∧ Attachment.ctx c ∈ e.attachments)
    ∧ ((∀ a ∈ e.attachments, a.isCtx = false) →
        custom_context e = (downcastCode e.attachments).map Context.fromCode
        ∧ ∀ c, custom_context e = some c →
            c.message = none ∧ Attachment.code c.code ∈ e.attachments)
    ∧ custom_context
        { attachments := [Attachment.ctx (Context.new "user msg"),
            Attachment.code Code.Unknown],
          rootCause := "io" }
      = some (Context.new "user msg") := by
  refine ⟨?_, ?_, ?_, by decide⟩
  · rw [custom_context_eq_none_iff, downcastContext_eq_none_iff,
      downcastCode_eq_none_iff]
    constructor
    · rintro ⟨h1, h2⟩ a ha
      exact ⟨h1 a ha, h2 a ha⟩
    · intro h
      exact ⟨fun a ha => (h a ha).1, fun a ha => (h a ha).2⟩
  · rintro ⟨c, hc⟩
    cases hdc : downcastContext e.attachments with
    | none =>
      rw [downcastContext_eq_none_iff] at hdc
      have := hdc (Attachment.ctx c) hc
      simp [Attachment.isCtx] at this
    | some c2 =>
      refine ⟨c2, ?_, downcastContext_mem _ _ hdc⟩
      unfold custom_context
      rw [hdc]
  · intro h
    have hdc : downcastContext e.attachments = none :=
      (downcastContext_eq_none_iff _).mpr h
    have heq : custom_context e = (downcastCode e.attachments).map Context.fromCode := by
      unfold custom_context
      rw [hdc]
    refine ⟨heq, fun c hc => ?_⟩
    rw [heq] at hc
    cases hk : downcastCode e.attachments with
    | none => rw [hk] at hc; simp at hc
    | some k =>
      rw [hk] at hc
      simp [Context.fromCode] at hc
      subst hc
      exact ⟨rfl, downcastCode_mem _ _ hk⟩

/-- Witness for C2 at the empty chain: no annotation of either kind,
so `custom_context()` returns none. -/
theorem custom_context_characterization_witness :
    custom_context { attachments := [], rootCause := "io2" } = none :=
  (custom_context_characterization { attachments := [], rootCause := "io2" }).1.2
    (by intro a ha; cases ha)

/-- C3: `custom_context_or_root_cause()` is total.  When
`custom_context()` finds nothing it returns a `Context` with code
Unknown and the root cause description as message; when it finds
something, that result is returned unchanged. -/
theorem custom_context_or_root_cause_total (e : ErrChain) :
    (custom_context e = none →
      custom_context_or_root_cause e
        = { code := Code.Unknown, message := some e.rootCause })
    ∧ ∀ c, custom_context e = some c → custom_context_or_root_cause e = c := by
  constructor
  · intro h
    unfold custom_context_or_root_cause
    rw [h]
    rfl
  · intro c h
    unfold custom_context_or_root_cause
    rw [h]
    rfl

/-- Witness for C3 at an unannotated chain with root cause
"disk full". -/
theorem custom_context_or_root_cause_total_witness :
    custom_context_or_root_cause { attachments := [], rootCause := "disk full" }
      = { code := Code.Unknown, message := some "disk full" } :=
  (custom_context_or_root_cause_total
    { attachments := [], rootCause := "disk full" }).1 rfl

/-- C4: whenever a `Context` annotation occurs anywhere in the chain,
`custom_context()` returns the outermost one, even when bare `Code`
annotations (or unrelated annotations) sit further out: the prefix
before the first `Context` is only required to contain no `Context`,
so it may contain bare codes. -/
theorem custom_context_outermost_context (l₁ l₂ : List Attachment)
    (c : Context) (root : String) (h : ∀ a ∈ l₁, a.isCtx = false) :
    custom_context
        { attachments := l₁ ++ Attachment.ctx c :: l₂, rootCause := root }
      = some c := by
  simp [custom_context, downcastContext_append l₁ l₂ c h]

/-- Witness for C4: a bare `Code::Unknown` attached outside of a
`Context` does not shadow it. -/
theorem custom_context_outermost_context_witness :
    custom_context
        { attachments := [Attachment.code Code.Unknown]
            ++ Attachment.ctx (Context.new_static Code.Validation "check input")
              :: [],
          rootCause := "io" }
      = some (Context.new_static Code.Validation "check input") :=
  custom_context_outermost_context [Attachment.code Code.Unknown] []
    (Context.new_static Code.Validation "check input") "io" (by decide)

/-- C5: `display()` on a `Context` returns exactly the fallback
string "Something went wrong" when the message is absent — never the
empty string — and returns exactly the message when one is present. -/
theorem Context_display_spec (c : Context) :
    (c.message = none →
      c.display = "Something went wrong" ∧ c.display ≠ "")
    ∧ ∀ m, c.message = some m → c.display = m := by
  obtain ⟨code, message⟩ := c
  refine ⟨fun h => ?_, fun m h => ?_⟩ <;> cases h
  · refine ⟨rfl, ?_⟩
    rw [show Context.display { code := code, message := none }
      = "Something went wrong" from rfl]
    decide
  · rfl

/-- Witness for C5 at a message-free `Context`. -/
theorem Context_display_spec_witness :
    Context.display { code := Code.Unknown, message := none }
      = "Something went wrong" :=
  ((Context_display_spec { code := Code.Unknown, message := none }).1 rfl).1

/-- C6: every `Code` variant displays as a non-empty identifier
string, and the variant-to-string mapping is injective. -/
theorem Code_display_nonempty_injective :
    (∀ c : Code, Code.display c ≠ "")
    ∧ ∀ c₁ c₂ : Code, c₁ ≠ c₂ → Code.display c₁ ≠ Code.display c₂ := by
  decide

/-- Witness for C6 at the distinct pair Unknown, Validation. -/
theorem Code_display_nonempty_injective_witness :
    Code.display Code.Unknown ≠ Code.display Code.Validation :=
  Code_display_nonempty_injective.2 Code.Unknown Code.Validation (by decide)

/-- C7: converting a bare `Code` into a `Context` keeps the code and
leaves the message absent. -/
theorem Context_fromCode_fields (c : Code) :
    (Context.fromCode c).code = c ∧ (Context.fromCode c).message = none :=
  ⟨rfl, rfl⟩

/-- C8: `with_code` is a pure frame-preserving update.  The source
takes `mut self` by value, so the caller's value is never observably
mutated; the result carries the new code and the untouched message of
the receiver. -/
theorem Context_with_code_frame (c1 : Context) (x : Code) :
    (c1.with_code x).code = x ∧ (c1.with_code x).message = c1.message :=
  ⟨rfl, rfl⟩

/-- C9: `Context::new` yields code Unknown with the given message,
`Context::new_static` yields exactly the two given fields, and the
derived default of `Code` is Unknown. -/
theorem Context_constructors_defaults :
    (∀ m : String, Context.new m = { code := Code.Unknown, message := some m })
    ∧ (∀ (c : Code) (m : String),
        Context.new_static c m = { code := c, message := some m })
    ∧ Code.defaultValue = Code.Unknown :=
  ⟨fun _ => rfl, fun _ _ => rfl, rfl⟩

/-- C10: a `Context` built from the empty message has the message
present (some empty string), and displays the empty string rather
than the "Something went wrong" fallback: the fallback applies only
when the message is absent. -/
theorem Context_new_empty_message :
    (Context.new "").message = some ""
    ∧ (Context.new "").display = ""
    ∧ (Context.new "").display ≠ "Something went wrong" :=
  ⟨rfl, rfl, by decide⟩

end GitButlerError
